import Mathlib

/-!
Verification of the training orchestration core of the Foggy-CycleGAN
repository, a shallow embedding of `lib/train.py` in Lean 4.

Modelling choices, traceable to the source:
* a tensor is flattened to the list of its scalar entries (`List ℝ`);
* the four networks are opaque functions on tensors; their parameter
  state, where it matters (checkpoint restore), is an opaque type `W`;
* the mutable `Trainer` object becomes an explicit state record and the
  JSON config file a record of optional slots (`none` = key absent);
* a raised Python exception becomes `Except.error` with its message;
* printing, directory creation and wall-clock timing are side effects
  with no bearing on the claims and are not modelled, except that the
  messages of `configure_checkpoint` and the collaborator calls of
  `epoch_callback` are returned as explicit traces.
-/

namespace FoggyCycleGAN

/-- A tensor, flattened to the list of its scalar entries. -/
abbrev Tensor := List ℝ

noncomputable section

/-- `tf.reduce_mean`: the sum of the entries divided by their number
(Lean division gives `0 / 0 = 0` on an empty tensor). -/
def reduce_mean (x : Tensor) : ℝ := x.sum / x.length

/-- Elementwise subtraction of two tensors of equal shape. -/
def tensorSub (a b : Tensor) : Tensor := List.zipWith (fun u v => u - v) a b

/-- `tf.abs`, elementwise absolute value. -/
def tensorAbs (a : Tensor) : Tensor := a.map (fun u => |u|)

/-- `tf.ones_like`: a tensor of ones of the same shape. -/
def ones_like (a : Tensor) : Tensor := List.replicate a.length 1

/-- `tf.zeros_like`: a tensor of zeros of the same shape. -/
def zeros_like (a : Tensor) : Tensor := List.replicate a.length 0

/-- One element of `tf.nn.sigmoid_cross_entropy_with_logits`, the
numerically stable form `max x 0 - x * z + log (1 + exp (-|x|))` that
TensorFlow computes for label `z` and logit `x`. -/
def sigmoid_cross_entropy_with_logits (z x : ℝ) : ℝ :=
  max x 0 - x * z + Real.log (1 + Real.exp (-|x|))

/-- The `self.loss_obj = tf.keras.losses.BinaryCrossentropy(from_logits=True)`
object built in `Trainer.__init__` (line 15): the mean over all elements of
the per-element sigmoid cross-entropy on raw logits. -/
def loss_obj (target pred : Tensor) : ℝ :=
  reduce_mean (List.zipWith sigmoid_cross_entropy_with_logits target pred)

/-- The logistic sigmoid. -/
def sigmoid (x : ℝ) : ℝ := 1 / (1 + Real.exp (-x))

/-- Stated from the specification text, for comparison with `loss_obj`:
binary cross-entropy of a label `z` against a raw logit `x`, the logit
first pushed through a sigmoid and the usual cross-entropy
`-(z log p + (1 - z) log (1 - p))` taken on the resulting probability
(the spec: cross-entropy computed from logits, not probabilities). -/
def bce_from_logits (z x : ℝ) : ℝ :=
  -(z * Real.log (sigmoid x) + (1 - z) * Real.log (1 - sigmoid x))

/-- Mean binary cross-entropy of a tensor of logits against a label
tensor, as the specification describes it. -/
def bce (target pred : Tensor) : ℝ :=
  reduce_mean (List.zipWith bce_from_logits target pred)

/-- `Trainer.discriminator_loss` (lines 74-78). -/
def discriminator_loss (real generated : Tensor) : ℝ :=
  let real_loss := loss_obj (ones_like real) real
  let generated_loss := loss_obj (zeros_like generated) generated
  let total_disc_loss := real_loss + generated_loss
  total_disc_loss * 0.5

/-- `Trainer.generator_loss` (lines 80-81). -/
def generator_loss (generated : Tensor) : ℝ :=
  loss_obj (ones_like generated) generated

/-- `Trainer.calc_cycle_loss` (lines 83-85); `LAMBDA` is the field set in
`Trainer.__init__`. -/
def calc_cycle_loss (LAMBDA : ℝ) (real_image cycled_image : Tensor) : ℝ :=
  let loss1 := reduce_mean (tensorAbs (tensorSub real_image cycled_image))
  LAMBDA * loss1

/-- `Trainer.identity_loss` (lines 87-89). -/
def identity_loss (LAMBDA : ℝ) (real_image same_image : Tensor) : ℝ :=
  let loss := reduce_mean (tensorAbs (tensorSub real_image same_image))
  LAMBDA * 0.5 * loss

/-- The loss computation of `Trainer.train_step` (lines 126-182). The four
networks are opaque functions on tensors, in the parameter order of
`Trainer.__init__`. Gradient computation and the optimizer updates (lines
162-180) mutate only network parameters and produce none of the returned
values; the function returns the four scalar losses of line 182. -/
def train_step (LAMBDA : ℝ)
    (generator_clear2fog generator_fog2clear
     discriminator_fog discriminator_clear : Tensor → Tensor)
    (real_clear real_fog : Tensor) : ℝ × ℝ × ℝ × ℝ :=
  let fake_fog := generator_clear2fog real_clear
  let cycled_clear := generator_fog2clear fake_fog
  let fake_clear := generator_fog2clear real_fog
  let cycled_fog := generator_clear2fog fake_clear
  let same_clear := generator_fog2clear real_clear
  let same_fog := generator_clear2fog real_fog
  let disc_real_clear := discriminator_clear real_clear
  let disc_real_fog := discriminator_fog real_fog
  let disc_fake_clear := discriminator_clear fake_clear
  let disc_fake_fog := discriminator_fog fake_fog
  let gen_clear2fog_loss := generator_loss disc_fake_fog
  let gen_fog2clear_loss := generator_loss disc_fake_clear
  let total_cycle_loss :=
    calc_cycle_loss LAMBDA real_clear cycled_clear +
      calc_cycle_loss LAMBDA real_fog cycled_fog
  let total_gen_clear2fog_loss :=
    gen_clear2fog_loss + total_cycle_loss + identity_loss LAMBDA real_fog same_fog
  let total_gen_fog2clear_loss :=
    gen_fog2clear_loss + total_cycle_loss + identity_loss LAMBDA real_clear same_clear
  let disc_clear_loss := discriminator_loss disc_real_clear disc_fake_clear
  let disc_fog_loss := discriminator_loss disc_real_fog disc_fake_fog
  (total_gen_clear2fog_loss, total_gen_fog2clear_loss, disc_clear_loss, disc_fog_loss)

end

/-- The persistent scalar state of a `Trainer` object, the fields set in
`Trainer.__init__` (lines 5-26). The four network objects are modelled
separately (`Networks`); the optimizer objects and their hyperparameters
are consulted by no claim and carry no state the orchestrator reads. -/
structure Trainer where
  LAMBDA : ℚ
  normalized_input : Bool
  weights_path : Option String
  tensorboard_base_logdir : String
  total_epochs : Nat
  image_log_path : String
  config_path : Option String
  tensorboard_current_logdir : Option String
deriving Repr, DecidableEq

/-- A freshly constructed `Trainer`, with the default field values of
`Trainer.__init__` (lines 21-26) — the state a process restart begins in. -/
def freshTrainer : Trainer where
  LAMBDA := 10
  normalized_input := true
  weights_path := none
  tensorboard_base_logdir := "tensorboard_logs"
  total_epochs := 0
  image_log_path := "image_logs"
  config_path := some "trainer_config.json"
  tensorboard_current_logdir := none

/-- The JSON config file handled by `save_config` and `load_config`: one
optional slot per key (`none` = key absent from the file). The values of
`weights_path` and `tensorboard_current_logdir` can be JSON `null` even
when the key is present, hence the nested options. `extra` records the
names of any further keys in the file; `load_config` tests only the five
literal key names, so extra keys — even ones named `LAMBDA`,
`normalized_input` or `config_path` — are never read. -/
structure Config where
  weights_path : Option (Option String) := none
  tensorboard_base_logdir : Option String := none
  tensorboard_current_logdir : Option (Option String) := none
  total_epochs : Option Nat := none
  image_log_path : Option String := none
  extra : List String := []
deriving Repr, DecidableEq

/-- `Trainer.save_config` (lines 34-50): the dict dumped to the config
file; all five keys are always written. The directory creation and the
file write itself are I/O; the caller of this model holds the resulting
`Config` as the new file content. -/
def save_config (t : Trainer) : Config where
  weights_path := some t.weights_path
  tensorboard_base_logdir := some t.tensorboard_base_logdir
  tensorboard_current_logdir := some t.tensorboard_current_logdir
  total_epochs := some t.total_epochs
  image_log_path := some t.image_log_path
  extra := []

/-- `Trainer.load_config` (lines 52-72). `file` is the content of the
file at `self.config_path`, `none` when `os.path.exists` is false (the
load is then skipped with a message). Each key present in the file
overwrites the matching field, in the order of the source; the
`tensorboard_current_logdir` key is applied only when the
`load_tensorboard_current_logdir` flag is set (line 65). -/
def load_config (load_tensorboard_current_logdir : Bool) (file : Option Config)
    (t : Trainer) : Trainer :=
  match file with
  | none => t
  | some config =>
    let t1 := match config.weights_path with
      | some v => { t with weights_path := v }
      | none => t
    let t2 := match config.tensorboard_base_logdir with
      | some v => { t1 with tensorboard_base_logdir := v }
      | none => t1
    let t3 :=
      if load_tensorboard_current_logdir then
        match config.tensorboard_current_logdir with
        | some v => { t2 with tensorboard_current_logdir := v }
        | none => t2
      else t2
    let t4 := match config.total_epochs with
      | some v => { t3 with total_epochs := v }
      | none => t3
    match config.image_log_path with
    | some v => { t4 with image_log_path := v }
    | none => t4

/-- The four network objects held by the Trainer, in the field order of
`Trainer.__init__`; `W` is the opaque type of one network of loadable
weight state. -/
structure Networks (W : Type) where
  generator_clear2fog : W
  generator_fog2clear : W
  discriminator_clear : W
  discriminator_fog : W
deriving Repr, DecidableEq

/-- `os.path.join` for the paths this code builds: a directory joined
with a bare file name. -/
def joinPath (a b : String) : String := a ++ "/" ++ b

/-- A message printed by `configure_checkpoint` for one weight file. -/
inductive CkptMsg where
  | loaded (path : String)
  | notFound (path : String)
deriving Repr, DecidableEq

/-- The body of the loop of `configure_checkpoint` for one
`(model, path)` pair (lines 113-118): when `os.path.isfile` holds, load
the stored weights into the model, otherwise leave the model untouched;
print one message either way. `disk` maps a path to the weight state
stored there (`none` = no such file). -/
def load_weights_if_present {W : Type} (disk : String → Option W) (model : W)
    (path : String) : W × CkptMsg :=
  match disk path with
  | some w => (w, CkptMsg.loaded path)
  | none => (model, CkptMsg.notFound path)

/-- `Trainer.configure_checkpoint` (lines 107-118): record the weights
path on the trainer, then walk the four `(model, path)` pairs of
`get_models_and_paths` (lines 91-105) in order, loading each weight file
that exists. Returns the updated trainer state, the updated networks and
the printed messages. It raises nothing for any combination of present
files. -/
def configure_checkpoint {W : Type} (t : Trainer) (weights_path : String)
    (disk : String → Option W) (nets : Networks W) :
    Trainer × Networks W × List CkptMsg :=
  let t' := { t with weights_path := some weights_path }
  let generator_clear2fog_weights_path := joinPath weights_path "generator_clear2fog.h5"
  let generator_fog2clear_weights_path := joinPath weights_path "generator_fog2clear.h5"
  let discriminator_clear_weights_path := joinPath weights_path "discriminator_clear.h5"
  let discriminator_fog_weights_path := joinPath weights_path "discriminator_fog.h5"
  let r1 := load_weights_if_present disk nets.generator_clear2fog generator_clear2fog_weights_path
  let r2 := load_weights_if_present disk nets.generator_fog2clear generator_fog2clear_weights_path
  let r3 := load_weights_if_present disk nets.discriminator_clear discriminator_clear_weights_path
  let r4 := load_weights_if_present disk nets.discriminator_fog discriminator_fog_weights_path
  (t',
   { generator_clear2fog := r1.1, generator_fog2clear := r2.1,
     discriminator_clear := r3.1, discriminator_fog := r4.1 },
   [r1.2, r2.2, r3.2, r4.2])

/-- The `sample_test` argument of `epoch_callback`: Python `None`, a
list, a tuple, or a value of any other type. `α` is the type of one
sample image. -/
inductive Sample (α : Type) where
  | nil : Sample α
  | listS (elems : List α) : Sample α
  | tupleS (elems : List α) : Sample α
  | other : Sample α
deriving Repr, DecidableEq

/-- Whether the argument is Python `None`. -/
def Sample.isNone {α : Type} : Sample α → Bool
  | .nil => true
  | _ => false

/-- Whether the argument is a list or tuple of exactly two elements —
the shape the checks of `epoch_callback` (lines 186-191) accept. -/
def Sample.isPair2 {α : Type} : Sample α → Bool
  | .listS xs => xs.length == 2
  | .tupleS xs => xs.length == 2
  | _ => false

/-- A call `epoch_callback` makes into a collaborator: one forward pass
through a generator or discriminator, or one call into the
plotting/visualization module. -/
inductive CbEvent where
  | inference
  | visualization
deriving Repr, DecidableEq

/-- The collaborator calls of a successful `epoch_callback` run: six
forward passes (two generator predictions and four discriminator scores,
lines 195-200), then the toggled visualization calls — the combined
generator-and-discriminator plot when plotted or saved (lines 203-217),
the generator-only plot when plotted (lines 219-221), and the generator
square image when saved (lines 222-228). -/
def epoch_callback_events (plot_sample_generator plot_sample_gen_and_disc
    save_sample_generator_output save_sample_gen_and_disc_output : Bool) :
    List CbEvent :=
  [CbEvent.inference, CbEvent.inference, CbEvent.inference,
   CbEvent.inference, CbEvent.inference, CbEvent.inference]
  ++ (if plot_sample_gen_and_disc || save_sample_gen_and_disc_output
      then [CbEvent.visualization] else [])
  ++ (if plot_sample_generator then [CbEvent.visualization] else [])
  ++ (if save_sample_generator_output then [CbEvent.visualization] else [])

/-- `Trainer.epoch_callback` (lines 184-228), as the trace of
collaborator calls it performs together with the message of the raised
exception, if any. `None` returns at once (line 186-187); a non-list,
non-tuple argument and a list or tuple whose length is not two raise
before any forward pass runs (lines 188-191). -/
def epoch_callback {α : Type} (sample_test : Sample α)
    (plot_sample_generator plot_sample_gen_and_disc
     save_sample_generator_output save_sample_gen_and_disc_output : Bool) :
    List CbEvent × Option String :=
  match sample_test with
  | .nil => ([], none)
  | .other => ([], some "sample_test should be a list or tuple!")
  | .listS xs =>
    if xs.length ≠ 2 then ([], some "sample_test should contain 2 elements!")
    else (epoch_callback_events plot_sample_generator plot_sample_gen_and_disc
            save_sample_generator_output save_sample_gen_and_disc_output, none)
  | .tupleS xs =>
    if xs.length ≠ 2 then ([], some "sample_test should contain 2 elements!")
    else (epoch_callback_events plot_sample_generator plot_sample_gen_and_disc
            save_sample_generator_output save_sample_gen_and_disc_output, none)

/-- The keyword parameters of `Trainer.train` with the default values of
the source (lines 230-233). `epoch_save_rate = none` models Python
`None`. -/
structure TrainParams where
  epochs : Nat := 40
  epoch_save_rate : Option Nat := some 1
  progress_print_rate : Nat := 10
  use_tensorboard : Bool := false
  plot_sample_generator : Bool := false
  plot_sample_gen_and_disc : Bool := true
  save_sample_generator_output : Bool := true
  save_sample_gen_and_disc_output : Bool := true
  load_config_first : Bool := true
  save_config_each_epoch : Bool := true
deriving Repr, DecidableEq

/-- Python `%` whose right operand may be `None`: evaluating it on
`None` raises a `TypeError`. The short-circuit in the guard of line 289
is what keeps this error branch unreachable. -/
def pyMod (a : Nat) (b : Option Nat) : Except String Nat :=
  match b with
  | none => .error "TypeError: unsupported operand types for modulo: int and NoneType"
  | some m => .ok (a % m)

/-- The weight-save guard of lines 289-290, with the left-to-right
short-circuit evaluation of the Python `and` chain made explicit: the
modulo `(epoch + 1) % epoch_save_rate` is evaluated only after both
`self.weights_path is not None` and `epoch_save_rate is not None`
held. -/
def save_guard (weights_path : Option String) (epoch_save_rate : Option Nat)
    (epoch : Nat) : Except String Bool :=
  if !weights_path.isSome then .ok false
  else if !epoch_save_rate.isSome then .ok false
  else
    match pyMod (epoch + 1) epoch_save_rate with
    | .error e => .error e
    | .ok r => .ok (r == 0)

/-- The state threaded through the epoch loop of `train`: the trainer
object, the config file content (`none` = no file on disk), and counters
of executed training steps and of weight-checkpoint saves. -/
structure LoopState where
  t : Trainer
  file : Option Config
  steps : Nat
  weightSaves : Nat
deriving Repr, DecidableEq

/-- One iteration of the epoch loop of `Trainer.train` (lines 260-319):
run `epoch_callback` (line 264, a raise propagates out of `train`),
consume the zipped batch streams calling `train_step` once per zipped
pair (lines 267-282; `train_step` mutates only network and optimizer
state, so the loop contributes the step count), evaluate the weight-save
guard (lines 289-294), increment `total_epochs` by one (line 317), and
when `save_config_each_epoch` is set overwrite the config file with the
new state (lines 318-319). Loss accumulation, progress printing and the
tensorboard scalar writes read no trainer field but `total_epochs` and
write none. -/
def train_epoch {α : Type} (train_clear train_fog : List α)
    (sample_test : Sample α) (p : TrainParams) (epoch : Nat)
    (s : LoopState) : Except String LoopState :=
  match (epoch_callback sample_test p.plot_sample_generator
      p.plot_sample_gen_and_disc p.save_sample_generator_output
      p.save_sample_gen_and_disc_output).2 with
  | some e => .error e
  | none =>
    let n := (List.zip train_clear train_fog).length
    match save_guard s.t.weights_path p.epoch_save_rate epoch with
    | .error e => .error e
    | .ok saveNow =>
      let t' := { s.t with total_epochs := s.t.total_epochs + 1 }
      let file' := if p.save_config_each_epoch then some (save_config t') else s.file
      .ok { t := t', file := file',
            steps := s.steps + n,
            weightSaves := s.weightSaves + (if saveNow then 1 else 0) }

/-- The loop `for epoch in range(epochs)` of line 260: run the epoch
body for `n` more epochs starting at index `epoch`, stopping at the
first raised exception. -/
def run_epochs {α : Type} (train_clear train_fog : List α)
    (sample_test : Sample α) (p : TrainParams) :
    Nat → Nat → LoopState → Except String LoopState
  | 0, _, s => .ok s
  | n + 1, epoch, s =>
    match train_epoch train_clear train_fog sample_test p epoch s with
    | .error e => .error e
    | .ok s' => run_epochs train_clear train_fog sample_test p n (epoch + 1) s'

/-- Lines 239-240 of `train`: when `load_config_first` is set and
`config_path` is not `None`, reload the config. -/
def train_load_step (p : TrainParams) (file : Option Config) (t : Trainer) : Trainer :=
  if p.load_config_first && t.config_path.isSome
  then load_config true file t else t

/-- Lines 250-257 of `train`: when tensorboard is enabled and no
current log directory is recorded yet, derive one from the base
directory and the current timestamp `now`. -/
def train_tensorboard_step (p : TrainParams) (now : String) (t : Trainer) : Trainer :=
  let logdir := joinPath t.tensorboard_base_logdir now
  if p.use_tensorboard && t.tensorboard_current_logdir.isNone
  then { t with tensorboard_current_logdir := some logdir }
  else t

/-- `Trainer.train` (lines 230-319) at the state level: the config
reload (lines 239-240), the tensorboard log-directory setup (lines
250-257), then the epoch loop. -/
def train {α : Type} (t : Trainer) (file : Option Config)
    (train_clear train_fog : List α) (sample_test : Sample α)
    (p : TrainParams) (now : String) : Except String LoopState :=
  run_epochs train_clear train_fog sample_test p p.epochs 0
    { t := train_tensorboard_step p now (train_load_step p file t),
      file := file, steps := 0, weightSaves := 0 }

/-- The `total_epochs` counter of a finished run, `none` when the run
raised. -/
def epochsOf : Except String LoopState → Option Nat
  | .ok s => some s.t.total_epochs
  | .error _ => none

/-- The number of training steps of a finished run, `none` when the run
raised. -/
def stepsOf : Except String LoopState → Option Nat
  | .ok s => some s.steps
  | .error _ => none

/-- The number of weight-checkpoint saves of a finished run, `none` when
the run raised. -/
def savesOf : Except String LoopState → Option Nat
  | .ok s => some s.weightSaves
  | .error _ => none

/-- The parameters restricted to the persistence scenario: one epoch per
call, config reloaded first, config saved at each epoch end. -/
def persistParams (p : TrainParams) : TrainParams :=
  { p with epochs := 1, load_config_first := true, save_config_each_epoch := true }

/-- A sequence of calls to `train` with `epochs = 1` and config
persistence enabled, `sample_test = None`. Each list entry says whether
the process restarts before that call — the call then starts from a
freshly constructed `Trainer` while the config file survives on disk. -/
def run_calls {α : Type} (train_clear train_fog : List α) (p : TrainParams)
    (now : String) : List Bool → Trainer → Option Config →
    Except String (Trainer × Option Config)
  | [], t, file => .ok (t, file)
  | restart :: rest, t, file =>
    let t0 := if restart then freshTrainer else t
    match train t0 file train_clear train_fog Sample.nil (persistParams p) now with
    | .error e => .error e
    | .ok s => run_calls train_clear train_fog p now rest s.t s.file

/-- The `total_epochs` counter after a sequence of calls, `none` when
some call raised. -/
def finalEpochs : Except String (Trainer × Option Config) → Option Nat
  | .ok (t, _) => some t.total_epochs
  | .error _ => none

/-- Invariant of the persistence scenario: the config file on disk
records `total_epochs = k`, and an absent file stands for `k = 0` (no
epoch completed yet in any process lifetime). -/
def FileInv (k : Nat) : Option Config → Prop
  | none => k = 0
  | some c => c.total_epochs = some k

/-! ## Helper lemmas -/

/-- Loading from an absent config file changes nothing. -/
theorem load_config_absent (b : Bool) (t : Trainer) : load_config b none t = t := rfl

/-- Closed form of `load_config` on a present file: each of the five
persisted fields takes the file value when the key is present and keeps
the in-memory value otherwise; every other field is untouched. -/
theorem load_config_present (b : Bool) (c : Config) (t : Trainer) :
    load_config b (some c) t =
      { t with
        weights_path := c.weights_path.getD t.weights_path,
        tensorboard_base_logdir :=
          c.tensorboard_base_logdir.getD t.tensorboard_base_logdir,
        tensorboard_current_logdir :=
          if b then c.tensorboard_current_logdir.getD t.tensorboard_current_logdir
          else t.tensorboard_current_logdir,
        total_epochs := c.total_epochs.getD t.total_epochs,
        image_log_path := c.image_log_path.getD t.image_log_path } := by
  rcases c with ⟨cw, cb, cc, ct, ci, ce⟩
  cases cw <;> cases cb <;> cases cc <;> cases ct <;> cases ci <;> cases b <;>
    simp [load_config]

/-- The save guard never raises: thanks to the short-circuit, the
modulo is reached only with a number on the right, and the guard value
is the conjunction of the three conditions. -/
theorem save_guard_eq (wp : Option String) (esr : Option Nat) (e : Nat) :
    save_guard wp esr e =
      Except.ok (wp.isSome && esr.isSome && ((e + 1) % esr.getD 1 == 0)) := by
  cases wp <;> cases esr <;> simp [save_guard, pyMod]

/-- When `epoch_save_rate` is `None`, no iteration of the epoch loop
adds a weight save, whatever the other parameters. -/
theorem run_epochs_no_saves {α : Type} (train_clear train_fog : List α)
    (sample : Sample α) (p : TrainParams) (h : p.epoch_save_rate = none) :
    ∀ (n e : Nat) (s : LoopState),
      savesOf (run_epochs train_clear train_fog sample p n e s) = none ∨
      savesOf (run_epochs train_clear train_fog sample p n e s) = some s.weightSaves := by
  intro n
  induction n with
  | zero => intro e s; right; rfl
  | succ n ih =>
    intro e s
    cases hc : (epoch_callback sample p.plot_sample_generator
        p.plot_sample_gen_and_disc p.save_sample_generator_output
        p.save_sample_gen_and_disc_output).2 with
    | some msg => left; simp [run_epochs, train_epoch, hc, savesOf]
    | none =>
      have hg : save_guard s.t.weights_path p.epoch_save_rate e = Except.ok false := by
        simp [save_guard_eq, h]
      have step : run_epochs train_clear train_fog sample p (n + 1) e s =
          run_epochs train_clear train_fog sample p n (e + 1)
            { t := { s.t with total_epochs := s.t.total_epochs + 1 },
              file := if p.save_config_each_epoch
                then some (save_config { s.t with total_epochs := s.t.total_epochs + 1 })
                else s.file,
              steps := s.steps + (List.zip train_clear train_fog).length,
              weightSaves := s.weightSaves } := by
        simp [run_epochs, train_epoch, hc, hg]
      rw [step]
      rcases ih (e + 1) _ with h1 | h1
      · left; exact h1
      · right; rw [h1]

/-- The tensorboard log-directory setup touches no field but
`tensorboard_current_logdir`. -/
theorem train_tensorboard_step_total_epochs (p : TrainParams) (now : String)
    (t : Trainer) : (train_tensorboard_step p now t).total_epochs = t.total_epochs := by
  unfold train_tensorboard_step
  split <;> rfl

/-- The tensorboard log-directory setup keeps `config_path`. -/
theorem train_tensorboard_step_config_path (p : TrainParams) (now : String)
    (t : Trainer) : (train_tensorboard_step p now t).config_path = t.config_path := by
  unfold train_tensorboard_step
  split <;> rfl

/-- With `sample_test = None`, one iteration of the epoch loop always
succeeds; its exact effect on the loop state. -/
theorem train_epoch_nil {α : Type} (train_clear train_fog : List α)
    (p : TrainParams) (e : Nat) (s : LoopState) :
    train_epoch train_clear train_fog (Sample.nil : Sample α) p e s =
      Except.ok
        { t := { s.t with total_epochs := s.t.total_epochs + 1 },
          file := if p.save_config_each_epoch
            then some (save_config { s.t with total_epochs := s.t.total_epochs + 1 })
            else s.file,
          steps := s.steps + (List.zip train_clear train_fog).length,
          weightSaves := s.weightSaves +
            (if s.t.weights_path.isSome && p.epoch_save_rate.isSome &&
                ((e + 1) % p.epoch_save_rate.getD 1 == 0) then 1 else 0) } := by
  simp [train_epoch, epoch_callback, save_guard_eq]

/-- Unfolding of the epoch loop by one iteration. -/
theorem run_epochs_succ {α : Type} (train_clear train_fog : List α)
    (sample : Sample α) (p : TrainParams) (n e : Nat) (s : LoopState) :
    run_epochs train_clear train_fog sample p (n + 1) e s =
      match train_epoch train_clear train_fog sample p e s with
      | .error msg => .error msg
      | .ok s' => run_epochs train_clear train_fog sample p n (e + 1) s' := rfl

/-- One `train` call of the persistence scenario: with `sample_test =
None`, a trainer whose `config_path` is set, and a config file that is
either absent (then the in-memory epoch counter is 0 and so is `k`) or
records `total_epochs = k`, the call succeeds, ends with
`total_epochs = k + 1`, keeps `config_path`, and leaves as config file
exactly the dump of its final state. -/
theorem persist_call_step {α : Type} (train_clear train_fog : List α)
    (p : TrainParams) (now : String) (t : Trainer) (file : Option Config) (k : Nat)
    (hcp : t.config_path.isSome = true)
    (hnone : file = none → t.total_epochs = 0)
    (hinv : FileInv k file) :
    ∃ s : LoopState,
      train t file train_clear train_fog (Sample.nil : Sample α)
          (persistParams p) now = Except.ok s ∧
      s.t.total_epochs = k + 1 ∧
      s.t.config_path = t.config_path ∧
      s.file = some (save_config s.t) := by
  have hcond : ((persistParams p).load_config_first && t.config_path.isSome) = true := by
    simp [persistParams, hcp]
  have hle : (train_load_step (persistParams p) file t).total_epochs = k := by
    unfold train_load_step
    rw [hcond]
    cases file with
    | none =>
      have hk : k = 0 := hinv
      simp [load_config_absent, hnone rfl, hk]
    | some c =>
      have hc : c.total_epochs = some k := hinv
      simp [load_config_present, hc]
  have hlc : (train_load_step (persistParams p) file t).config_path = t.config_path := by
    unfold train_load_step
    rw [hcond]
    cases file with
    | none => rfl
    | some c => simp [load_config_present]
  set T2 := train_tensorboard_step (persistParams p) now
    (train_load_step (persistParams p) file t) with hT2
  have h2e : T2.total_epochs = k := by
    rw [hT2, train_tensorboard_step_total_epochs, hle]
  have h2c : T2.config_path = t.config_path := by
    rw [hT2, train_tensorboard_step_config_path, hlc]
  have htrain : train t file train_clear train_fog (Sample.nil : Sample α)
      (persistParams p) now = Except.ok
        { t := { T2 with total_epochs := T2.total_epochs + 1 },
          file := if (persistParams p).save_config_each_epoch
            then some (save_config { T2 with total_epochs := T2.total_epochs + 1 })
            else file,
          steps := 0 + (List.zip train_clear train_fog).length,
          weightSaves := 0 +
            (if T2.weights_path.isSome && (persistParams p).epoch_save_rate.isSome &&
                ((0 + 1) % (persistParams p).epoch_save_rate.getD 1 == 0)
             then 1 else 0) } := by
    show run_epochs train_clear train_fog (Sample.nil : Sample α)
        (persistParams p) (0 + 1) 0
        { t := T2, file := file, steps := 0, weightSaves := 0 } = _
    rw [run_epochs_succ, train_epoch_nil]
    rfl
  refine ⟨_, htrain, ?_, ?_, ?_⟩
  · simp [h2e]
  · simp [h2c]
  · simp [persistParams]

/-- A chain of persistence-enabled `train` calls, possibly restarting
the process (i.e. the in-memory `Trainer`) before any of them, advances
the persisted epoch counter by exactly the number of calls. -/
theorem run_calls_invariant {α : Type} (train_clear train_fog : List α)
    (p : TrainParams) (now : String) :
    ∀ (restarts : List Bool) (t : Trainer) (file : Option Config) (k : Nat),
      t.config_path.isSome = true →
      t.total_epochs = k →
      FileInv k file →
      ∃ (t' : Trainer) (f' : Option Config),
        run_calls train_clear train_fog p now restarts t file = Except.ok (t', f') ∧
        t'.total_epochs = k + restarts.length ∧
        t'.config_path.isSome = true ∧
        FileInv (k + restarts.length) f' := by
  intro restarts
  induction restarts with
  | nil =>
    intro t file k hcp htot hinv
    exact ⟨t, file, rfl, by simpa using htot, hcp, by simpa using hinv⟩
  | cons b rest ih =>
    intro t file k hcp htot hinv
    have hcp0 : (if b then freshTrainer else t).config_path.isSome = true := by
      cases b <;> simp [freshTrainer, hcp]
    have hnone0 : file = none → (if b then freshTrainer else t).total_epochs = 0 := by
      intro hf
      have hk : k = 0 := by rw [hf] at hinv; exact hinv
      cases b with
      | false => simp [htot, hk]
      | true => rfl
    obtain ⟨s, hS, hSe, hSc, hSf⟩ :=
      persist_call_step train_clear train_fog p now
        (if b then freshTrainer else t) file k hcp0 hnone0 hinv
    have hnext : run_calls train_clear train_fog p now (b :: rest) t file =
        run_calls train_clear train_fog p now rest s.t s.file := by
      simp only [run_calls]
      rw [hS]
    have hScp : s.t.config_path.isSome = true := by rw [hSc]; exact hcp0
    have hSfile : FileInv (k + 1) s.file := by
      rw [hSf]
      show (save_config s.t).total_epochs = some (k + 1)
      simp [save_config, hSe]
    obtain ⟨t', f', hrun, he', hc', hf'⟩ := ih s.t s.file (k + 1) hScp hSe hSfile
    refine ⟨t', f', by rw [hnext, hrun], ?_, hc', ?_⟩
    · rw [he', List.length_cons]
      omega
    · cases f' with
      | none =>
        have : k + 1 + rest.length = 0 := hf'
        show k + (b :: rest).length = 0
        rw [List.length_cons]
        omega
      | some c =>
        have hy : c.total_epochs = some (k + 1 + rest.length) := hf'
        show c.total_epochs = some (k + (b :: rest).length)
        rw [hy, List.length_cons]
        congr 1
        omega

/-- Subtracting a tensor from itself gives the zero tensor. -/
theorem tensorSub_self (x : Tensor) : tensorSub x x = List.replicate x.length 0 := by
  unfold tensorSub
  induction x with
  | nil => rfl
  | cons a l ih => simp [List.replicate_succ, ih]

/-- The mean of a zero tensor is zero. -/
theorem reduce_mean_replicate_zero (n : Nat) :
    reduce_mean (List.replicate n (0 : ℝ)) = 0 := by
  simp [reduce_mean, List.sum_replicate]

/-- `1 + exp x` never vanishes. -/
theorem one_add_exp_ne_zero (x : ℝ) : 1 + Real.exp x ≠ 0 := by positivity

/-- Logarithm of the sigmoid. -/
theorem log_sigmoid (x : ℝ) :
    Real.log (sigmoid x) = -Real.log (1 + Real.exp (-x)) := by
  unfold sigmoid
  rw [one_div, Real.log_inv]

/-- Complement of the sigmoid. -/
theorem one_sub_sigmoid (x : ℝ) :
    1 - sigmoid x = Real.exp (-x) / (1 + Real.exp (-x)) := by
  unfold sigmoid
  have h := one_add_exp_ne_zero (-x)
  field_simp

/-- Logarithm of the sigmoid complement. -/
theorem log_one_sub_sigmoid (x : ℝ) :
    Real.log (1 - sigmoid x) = -x - Real.log (1 + Real.exp (-x)) := by
  rw [one_sub_sigmoid, Real.log_div (Real.exp_ne_zero _) (one_add_exp_ne_zero _),
    Real.log_exp]

/-- The numerically stable formula TensorFlow evaluates agrees, for
every label and logit, with the mathematical binary cross-entropy of the
sigmoid of the logit. -/
theorem sigmoid_cross_entropy_eq_bce (z x : ℝ) :
    sigmoid_cross_entropy_with_logits z x = bce_from_logits z x := by
  unfold sigmoid_cross_entropy_with_logits bce_from_logits
  rw [log_sigmoid, log_one_sub_sigmoid]
  rcases le_total 0 x with h | h
  · rw [abs_of_nonneg h, max_eq_left h]
    ring
  · rw [abs_of_nonpos h, max_eq_right h, neg_neg]
    have hexp : Real.exp x * (1 + Real.exp (-x)) = 1 + Real.exp x := by
      have h0 : Real.exp x * Real.exp (-x) = 1 := by
        rw [← Real.exp_add]
        simp
      calc Real.exp x * (1 + Real.exp (-x))
          = Real.exp x + Real.exp x * Real.exp (-x) := by ring
        _ = Real.exp x + 1 := by rw [h0]
        _ = 1 + Real.exp x := by ring
    have key : Real.log (1 + Real.exp x) = x + Real.log (1 + Real.exp (-x)) := by
      rw [← hexp, Real.log_mul (Real.exp_ne_zero x) (one_add_exp_ne_zero (-x)),
        Real.log_exp]
    rw [key]
    ring

/-- The loss object the code builds computes exactly the mean binary
cross-entropy from logits of the specification. -/
theorem loss_obj_eq_bce : @loss_obj = @bce := by
  funext target pred
  unfold loss_obj bce
  congr 1
  have h : sigmoid_cross_entropy_with_logits = bce_from_logits :=
    funext fun z => funext fun x => sigmoid_cross_entropy_eq_bce z x
  rw [h]

/-! ## Claim theorems -/

/-- C2: for every pair of input batches, `train_step` returns exactly
the four losses composed as the spec states — per direction, the
adversarial loss of the discriminator score on the fake
output of that direction, plus the shared combined cycle loss on both reconstructions,
plus the identity loss on the identity probe of the other domain; and per
domain, `discriminator_loss` of the scores on the real batch and on the
fake of that domain. -/
theorem train_step_loss_composition :
    ∀ (LAMBDA : ℝ)
      (generator_clear2fog generator_fog2clear
       discriminator_fog discriminator_clear : Tensor → Tensor)
      (real_clear real_fog : Tensor),
      train_step LAMBDA generator_clear2fog generator_fog2clear
          discriminator_fog discriminator_clear real_clear real_fog =
        (generator_loss (discriminator_fog (generator_clear2fog real_clear)) +
           (calc_cycle_loss LAMBDA real_clear
              (generator_fog2clear (generator_clear2fog real_clear)) +
            calc_cycle_loss LAMBDA real_fog
              (generator_clear2fog (generator_fog2clear real_fog))) +
           identity_loss LAMBDA real_fog (generator_clear2fog real_fog),
         generator_loss (discriminator_clear (generator_fog2clear real_fog)) +
           (calc_cycle_loss LAMBDA real_clear
              (generator_fog2clear (generator_clear2fog real_clear)) +
            calc_cycle_loss LAMBDA real_fog
              (generator_clear2fog (generator_fog2clear real_fog))) +
           identity_loss LAMBDA real_clear (generator_fog2clear real_clear),
         discriminator_loss (discriminator_clear real_clear)
           (discriminator_clear (generator_fog2clear real_fog)),
         discriminator_loss (discriminator_fog real_fog)
           (discriminator_fog (generator_clear2fog real_clear))) := by
  intros
  rfl

/-- C3: for every pair of score tensors, `discriminator_loss` equals
one half of the sum of the binary cross-entropy of the real scores
against an all-ones target and the binary cross-entropy of the
generated scores against an all-zeros target, the cross-entropies
computed from raw logits. -/
theorem discriminator_loss_is_half_sum_bce :
    ∀ (real generated : Tensor),
      discriminator_loss real generated =
        0.5 * (bce (ones_like real) real + bce (zeros_like generated) generated) := by
  intro real generated
  show (loss_obj (ones_like real) real + loss_obj (zeros_like generated) generated)
      * 0.5 = _
  rw [loss_obj_eq_bce]
  ring

/-- C8: identical real and cycled (or same) images give zero cycle loss
and zero identity loss, for every value of the lambda weight. -/
theorem identical_images_zero_loss :
    ∀ (LAMBDA : ℝ) (x : Tensor),
      calc_cycle_loss LAMBDA x x = 0 ∧ identity_loss LAMBDA x x = 0 := by
  intro LAMBDA x
  have h : reduce_mean (tensorAbs (tensorSub x x)) = 0 := by
    rw [tensorSub_self]
    simp [tensorAbs, reduce_mean, List.sum_replicate]
  constructor <;> simp [calc_cycle_loss, identity_loss, h]

/-- C4: config persistence round-trips with merge semantics —
`save_config` followed by `load_config` reproduces all five persisted
fields exactly (whatever in-memory state the load starts from); for a
partial config file, `load_config` overwrites exactly the keys present
in the file and keeps the in-memory values of absent keys; and loading
from an absent config file returns without error and changes nothing. -/
theorem config_roundtrip_and_merge :
    (∀ t t2 : Trainer,
      (load_config true (some (save_config t)) t2).weights_path = t.weights_path ∧
      (load_config true (some (save_config t)) t2).tensorboard_base_logdir =
        t.tensorboard_base_logdir ∧
      (load_config true (some (save_config t)) t2).tensorboard_current_logdir =
        t.tensorboard_current_logdir ∧
      (load_config true (some (save_config t)) t2).total_epochs = t.total_epochs ∧
      (load_config true (some (save_config t)) t2).image_log_path = t.image_log_path) ∧
    (∀ (b : Bool) (c : Config) (t : Trainer),
      (load_config b (some c) t).weights_path = c.weights_path.getD t.weights_path ∧
      (load_config b (some c) t).tensorboard_base_logdir =
        c.tensorboard_base_logdir.getD t.tensorboard_base_logdir ∧
      (load_config b (some c) t).tensorboard_current_logdir =
        (if b then c.tensorboard_current_logdir.getD t.tensorboard_current_logdir
         else t.tensorboard_current_logdir) ∧
      (load_config b (some c) t).total_epochs = c.total_epochs.getD t.total_epochs ∧
      (load_config b (some c) t).image_log_path = c.image_log_path.getD t.image_log_path) ∧
    (∀ (b : Bool) (t : Trainer), load_config b none t = t) := by
  refine ⟨fun t t2 => ?_, fun b c t => ?_, fun b t => rfl⟩
  · simp [load_config_present, save_config]
  · simp [load_config_present]

/-- C10: `load_config` never modifies `LAMBDA`, `normalized_input` or
`config_path`, whatever the config file holds (keys other than the five
persisted ones are never read); and with the
`load_tensorboard_current_logdir` flag false, `tensorboard_current_logdir`
is not modified either. -/
theorem load_config_frame :
    ∀ (b : Bool) (file : Option Config) (t : Trainer),
      (load_config b file t).LAMBDA = t.LAMBDA ∧
      (load_config b file t).normalized_input = t.normalized_input ∧
      (load_config b file t).config_path = t.config_path ∧
      (load_config false file t).tensorboard_current_logdir =
        t.tensorboard_current_logdir := by
  intro b file t
  cases file with
  | none => simp [load_config_absent]
  | some c => simp [load_config_present]

/-- C5: checkpoint restore is per-network independent. For any
combination of weight files on disk, `configure_checkpoint` returns a
result (it is a total function — no combination makes it raise, none of
the four files is required): it records the weights path, each of the four
networks takes the weights stored at its own file when that file exists
and keeps its prior parameters otherwise, and the message printed for
each file position is the not-found notice exactly when that file is
missing. -/
theorem configure_checkpoint_per_network :
    ∀ (W : Type) (t : Trainer) (wp : String) (disk : String → Option W)
      (nets : Networks W),
      (configure_checkpoint t wp disk nets).1 = { t with weights_path := some wp } ∧
      (configure_checkpoint t wp disk nets).2.1.generator_clear2fog =
        (disk (joinPath wp "generator_clear2fog.h5")).getD nets.generator_clear2fog ∧
      (configure_checkpoint t wp disk nets).2.1.generator_fog2clear =
        (disk (joinPath wp "generator_fog2clear.h5")).getD nets.generator_fog2clear ∧
      (configure_checkpoint t wp disk nets).2.1.discriminator_clear =
        (disk (joinPath wp "discriminator_clear.h5")).getD nets.discriminator_clear ∧
      (configure_checkpoint t wp disk nets).2.1.discriminator_fog =
        (disk (joinPath wp "discriminator_fog.h5")).getD nets.discriminator_fog ∧
      ((configure_checkpoint t wp disk nets).2.2[0]? =
          some (CkptMsg.notFound (joinPath wp "generator_clear2fog.h5")) ↔
        disk (joinPath wp "generator_clear2fog.h5") = none) ∧
      ((configure_checkpoint t wp disk nets).2.2[1]? =
          some (CkptMsg.notFound (joinPath wp "generator_fog2clear.h5")) ↔
        disk (joinPath wp "generator_fog2clear.h5") = none) ∧
      ((configure_checkpoint t wp disk nets).2.2[2]? =
          some (CkptMsg.notFound (joinPath wp "discriminator_clear.h5")) ↔
        disk (joinPath wp "discriminator_clear.h5") = none) ∧
      ((configure_checkpoint t wp disk nets).2.2[3]? =
          some (CkptMsg.notFound (joinPath wp "discriminator_fog.h5")) ↔
        disk (joinPath wp "discriminator_fog.h5") = none) := by
  intro W t wp disk nets
  cases h1 : disk (joinPath wp "generator_clear2fog.h5") <;>
    cases h2 : disk (joinPath wp "generator_fog2clear.h5") <;>
      cases h3 : disk (joinPath wp "discriminator_clear.h5") <;>
        cases h4 : disk (joinPath wp "discriminator_fog.h5") <;>
          simp [configure_checkpoint, load_weights_if_present, h1, h2, h3, h4]

/-- C6: `epoch_callback` raises exactly when its sample argument is
non-`None` and is not a list or tuple of exactly two elements; whenever
it raises, its collaborator-call trace is empty, so the error precedes
any inference; and on `None` it returns at once with no collaborator
call and no error. -/
theorem epoch_callback_argument_check :
    ∀ (α : Type) (s : Sample α) (a b c d : Bool),
      ((epoch_callback s a b c d).2.isSome = (!s.isNone && !s.isPair2)) ∧
      ((epoch_callback s a b c d).2 = none ∨ (epoch_callback s a b c d).1 = []) ∧
      (epoch_callback (Sample.nil : Sample α) a b c d = ([], none)) := by
  intro α s a b c d
  refine ⟨?_, ?_, rfl⟩ <;>
    cases s <;>
      simp [epoch_callback, Sample.isNone, Sample.isPair2] <;>
        first
          | rfl
          | (rename_i xs
             by_cases h : xs.length = 2 <;> simp [h])

/-- C1: every iteration of the epoch loop that completes (possible
errors stop it before the increment, never after) leaves `total_epochs`
exactly one above its value at entry — so the counter never decreases —
and after any sequence of N `train` calls with `epochs = 1` and config
persistence enabled, starting from a fresh trainer and no config file
and with arbitrary process restarts (each reloading the config first),
`total_epochs` equals N. -/
theorem total_epochs_increments_and_persists :
    (∀ (α : Type) (train_clear train_fog : List α) (sample : Sample α)
       (p : TrainParams) (e : Nat) (s : LoopState),
      epochsOf (train_epoch train_clear train_fog sample p e s) = none ∨
      epochsOf (train_epoch train_clear train_fog sample p e s) =
        some (s.t.total_epochs + 1)) ∧
    (∀ (α : Type) (train_clear train_fog : List α) (p : TrainParams)
       (now : String) (restarts : List Bool),
      finalEpochs (run_calls train_clear train_fog p now restarts freshTrainer none) =
        some restarts.length) := by
  constructor
  · intro α train_clear train_fog sample p e s
    cases hc : (epoch_callback sample p.plot_sample_generator
        p.plot_sample_gen_and_disc p.save_sample_generator_output
        p.save_sample_gen_and_disc_output).2 with
    | some msg => left; simp [train_epoch, hc, epochsOf]
    | none => right; simp [train_epoch, hc, save_guard_eq, epochsOf]
  · intro α train_clear train_fog p now restarts
    obtain ⟨t', f', hrun, he, -, -⟩ :=
      run_calls_invariant train_clear train_fog p now restarts freshTrainer none
        0 rfl rfl rfl
    simp [finalEpochs, hrun, he]

/-- C7: one epoch of the training loop zips the two batch streams in
lockstep and performs exactly `min` of the two lengths many training
steps, with no error from a length mismatch; in particular a run of
`train` over streams of lengths 5 and 3 performs exactly 3 steps. -/
theorem zip_truncates_to_shorter_stream :
    (∀ (α : Type) (train_clear train_fog : List α) (p : TrainParams)
       (e : Nat) (s : LoopState),
      stepsOf (train_epoch train_clear train_fog (Sample.nil : Sample α) p e s) =
        some (s.steps + min train_clear.length train_fog.length)) ∧
    stepsOf (train freshTrainer none [0, 1, 2, 3, 4] [0, 1, 2]
        (Sample.nil : Sample Nat) { epochs := 1 } "ts") = some 3 := by
  constructor
  · intro α train_clear train_fog p e s
    simp [train_epoch, epoch_callback, save_guard_eq, stepsOf]
  · rfl

/-- C9: with `epoch_save_rate = None` the save guard is false at every
epoch — the short-circuit stops before the modulo, so no `TypeError` is
raised — and a call to `train` with `epoch_save_rate = None` writes no
weight checkpoint (the count is 0 whenever the run finishes; the only
error a run can stop on comes from `epoch_callback`, not from the save
guard). -/
theorem no_checkpoint_when_rate_none :
    (∀ (wp : Option String) (e : Nat), save_guard wp none e = Except.ok false) ∧
    (∀ (α : Type) (t : Trainer) (file : Option Config)
       (train_clear train_fog : List α) (sample : Sample α)
       (p : TrainParams) (now : String),
      savesOf (train t file train_clear train_fog sample
          { p with epoch_save_rate := none } now) = none ∨
      savesOf (train t file train_clear train_fog sample
          { p with epoch_save_rate := none } now) = some 0) := by
  constructor
  · intro wp e; simp [save_guard_eq]
  · intro α t file train_clear train_fog sample p now
    exact run_epochs_no_saves train_clear train_fog sample
      { p with epoch_save_rate := none } rfl _ 0 _

end FoggyCycleGAN
